import Mathlib

/-!
Verification of the LessonPlanBuilder backend (`src/backend/server.py`).

The Python source is shallowly embedded: every handler becomes a pure Lean
function, external collaborators (the LLM gateway, `json.loads`, the Mongo
store, the filesystem of temporary files) become explicit parameters or
explicit pieces of state, and machine-level concerns that the claims do not
touch are kept out.  Each definition is annotated with the source lines it
embeds.  Strings are ASCII in every concrete input considered here, so
Python `str.strip` / `str.isupper` are modelled on ASCII characters.  The
Python string primitives are re-implemented by structural recursion on the
character list (with an explicit fuel argument where the recursion follows
the separator), so that every definition evaluates inside the kernel.
-/

set_option maxHeartbeats 1000000

namespace LessonPlanner

/-! ## Python string primitives -/

/-- Whitespace stripped by Python `str.strip` (ASCII fragment). -/
def pySpace (c : Char) : Bool :=
  c = ' ' || c = '\t' || c = '\n' || c = '\r'

/-- Python `str.strip()`: drop whitespace from both ends. -/
def pyStrip (s : String) : String :=
  ⟨((s.data.dropWhile pySpace).reverse.dropWhile pySpace).reverse⟩

/-- Does `pat` occur at the head of `s`? -/
def headMatches : List Char → List Char → Bool
  | [], _ => true
  | _ :: _, [] => false
  | p :: ps, c :: cs => p = c && headMatches ps cs

/-- Python `s.startswith(pat)`. -/
def pyStartsWith (s pat : String) : Bool :=
  headMatches pat.data s.data

/-- Python `s.endswith(pat)`. -/
def pyEndsWith (s pat : String) : Bool :=
  headMatches pat.data.reverse s.data.reverse

/-- Python `c in s` for a single character. -/
def pyHasChar (s : String) (c : Char) : Bool :=
  s.data.any (fun d => d = c)

/-- Occurrence test used for Python `pat in s` (non-empty `pat`). -/
def occursIn (pat : List Char) : List Char → Bool
  | [] => pat.isEmpty
  | c :: cs => headMatches pat (c :: cs) || occursIn pat cs

/-- Python `pat in s` (substring containment). -/
def pyHasSub (s pat : String) : Bool :=
  occursIn pat.data s.data

/-- Splitter behind Python `s.split(sep)` for a non-empty `sep`: structural
recursion on the fuel, which starts at `s.length + 1` and dominates the scan. -/
def splitSepFuel (sep : List Char) : Nat → List Char → List Char → List (List Char)
  | 0, s, acc => [acc.reverse ++ s]
  | _ + 1, [], acc => [acc.reverse]
  | fuel + 1, c :: cs, acc =>
    if headMatches sep (c :: cs) then
      acc.reverse :: splitSepFuel sep fuel ((c :: cs).drop sep.length) []
    else
      splitSepFuel sep fuel cs (c :: acc)

/-- Python `s.split(sep)` for a non-empty separator string. -/
def pySplit (s sep : String) : List String :=
  (splitSepFuel sep.data (s.data.length + 1) s.data []).map (fun l => ⟨l⟩)

/-- Replacer behind Python `s.replace(old, new)` (all occurrences, non-empty
`old`), again driven by a fuel that starts at `s.length + 1`. -/
def replaceFuel (old new : List Char) : Nat → List Char → List Char
  | 0, s => s
  | _ + 1, [] => []
  | fuel + 1, c :: cs =>
    if headMatches old (c :: cs) then
      new ++ replaceFuel old new fuel ((c :: cs).drop old.length)
    else
      c :: replaceFuel old new fuel cs

/-- Python `s.replace(old, new)` for a non-empty `old`. -/
def pyReplace (s old new : String) : String :=
  ⟨replaceFuel old.data new.data (s.data.length + 1) s.data⟩

/-- ASCII lower-casing of one character (Python `str.lower` fragment). -/
def asciiLower (c : Char) : Char :=
  if 'A' ≤ c && c ≤ 'Z' then Char.ofNat (c.toNat + 32) else c

/-- Python `s.lower()` on ASCII text. -/
def pyLower (s : String) : String :=
  ⟨s.data.map asciiLower⟩

/-- ASCII cased character. -/
def isAsciiAlpha (c : Char) : Bool :=
  ('a' ≤ c && c ≤ 'z') || ('A' ≤ c && c ≤ 'Z')

/-- ASCII lowercase character. -/
def isAsciiLower (c : Char) : Bool :=
  'a' ≤ c && c ≤ 'z'

/-- Python `str.isupper` restricted to ASCII: at least one cased character
and no lowercase character.  Used by `server.py` line 338. -/
def pyIsUpper (s : String) : Bool :=
  s.data.any isAsciiAlpha && s.data.all (fun c => !isAsciiLower c)

/-- Python `len(s)` (character count). -/
def pyLen (s : String) : Nat :=
  s.data.length

/-- Python slice `s[n:]`. -/
def pyDrop (s : String) (n : Nat) : String :=
  ⟨s.data.drop n⟩

/-- Python slice `s[:n]`. -/
def pyTake (s : String) (n : Nat) : String :=
  ⟨s.data.take n⟩

/-- HTTP error as raised by `fastapi.HTTPException(status_code, detail)`. -/
structure HTTPException where
  status : Nat
  detail : String
  deriving Repr, DecidableEq

/-! ## Lesson plan data model (`server.py` lines 178-190) -/

/-- Embeds `LessonPlanRequest` (lines 178-184); `focus_topic : Optional[str] = ""`
is modelled as a `String` that defaults to `""`. -/
structure LessonPlanRequest where
  subject_name : String
  lecture_topic : String
  focus_topic : String := ""
  blooms_taxonomy : String
  aqf_level : String
  lesson_duration : String
  deriving Repr, DecidableEq

/-- Embeds `LessonPlan` (lines 186-190); `generated_at : datetime` is modelled as a
natural-number timestamp. -/
structure LessonPlan where
  id : String
  request_data : LessonPlanRequest
  content : String
  generated_at : Nat
  deriving Repr, DecidableEq

/-! ## Lesson plan renderer (`generate_lesson_plan_pdf`, lines 250-373)

The renderer builds a reportlab `story` (a list of flowables) and hands it to
the external reportlab library.  The story construction is repository code and
is embedded below; reportlab itself is an external collaborator. -/

/-- The paragraph styles defined in lines 255-292. -/
inductive PStyle where
  | customTitle
  | sectionHeading
  | subsectionHeading
  | bulletStyle
  | normal
  deriving Repr, DecidableEq

/-- A reportlab flowable appended to the `story` list. -/
inductive Flowable where
  | para (text : String) (style : PStyle)
  | spacer (w h : Nat)
  | table (rows : List (String × String))
  deriving Repr, DecidableEq

/-- Modelled from the spec: `datetime.strftime("%Y-%m-%d %H:%M:%S")` (line
308) is Python-stdlib code, modelled as an opaque deterministic rendering of
the stored timestamp; no claim inspects its text. -/
def strftimeYmdHms (t : Nat) : String :=
  toString t

/-- The details-table rows (lines 301-309); `focus_topic or "General
Coverage"` uses Python truthiness of the string. -/
def detailRows (lp : LessonPlan) : List (String × String) :=
  [("Subject:", lp.request_data.subject_name),
   ("Lecture Topic:", lp.request_data.lecture_topic),
   ("Focus Topic:",
     if lp.request_data.focus_topic = "" then "General Coverage"
     else lp.request_data.focus_topic),
   ("Bloom's Taxonomy Level:", lp.request_data.blooms_taxonomy),
   ("AQF Level:", lp.request_data.aqf_level),
   ("Duration:", lp.request_data.lesson_duration),
   ("Generated:", strftimeYmdHms lp.generated_at)]

/-- Line 349: `('(' in line and 'minutes)' in line) or line.endswith('minutes')`. -/
def isSubsectionLine (line : String) : Bool :=
  (pyHasChar line '(' && pyHasSub line "minutes)") || pyEndsWith line "minutes"

/-- Lines 343-357: classification of a body line inside a block whose first
line was recognised as a section heading (the stripped line is written out in
each branch; the source binds it to `line`). -/
def classifyBody (l : String) : List Flowable :=
  if pyStrip l = "" then []
  else if isSubsectionLine (pyStrip l) then
    [.para (pyStrip l) .subsectionHeading]
  else if pyStartsWith (pyStrip l) "- " then
    [.para ("• " ++ pyDrop (pyStrip l) 2) .bulletStyle]
  else [.para (pyStrip l) .normal, .spacer 1 6]

/-- Lines 360-371: classification of a line inside a block whose first line
was not recognised as a section heading (no subsection check here). -/
def classifyPlain (l : String) : List Flowable :=
  if pyStrip l = "" then []
  else if pyStartsWith (pyStrip l) "- " then
    [.para ("• " ++ pyDrop (pyStrip l) 2) .bulletStyle]
  else [.para (pyStrip l) .normal, .spacer 1 6]

/-- Line 338: `first_line.isupper() and len(first_line) < 100`. -/
def isHeadingLine (l : String) : Bool :=
  pyIsUpper l && pyLen l < 100

/-- Lines 334-371 applied to the line list of one blank-line-separated block. -/
def processBlockLines (lines : List String) : List Flowable :=
  if isHeadingLine (pyStrip (lines.headD "")) then
    .para (pyStrip (lines.headD "")) .sectionHeading
      :: (lines.tail.map classifyBody).flatten
  else
    (lines.map classifyPlain).flatten

/-- Lines 329-335: strip the block, skip it when empty, split it into lines. -/
def processBlock (sec : String) : List Flowable :=
  if pyStrip sec = "" then []
  else processBlockLines (pySplit (pyStrip sec) "\n")

/-- The full `story` built by `generate_lesson_plan_pdf` (lines 294-372):
title, spacer, details table, spacer, then the heuristic parse of `content`
split on blank lines (line 327). -/
def buildStory (lp : LessonPlan) : List Flowable :=
  [.para "LESSON PLAN" .customTitle, .spacer 1 20,
   .table (detailRows lp), .spacer 1 30]
  ++ ((pySplit lp.content "\n\n").map processBlock).flatten

/-! ## Credential store and session tokens (`server.py` lines 39-117, 381-481)

`hashlib.sha256` and the HMAC inside PyJWT are external cryptographic
primitives; they are threaded through the model as explicit function
parameters (`hashFn`, `macFn`), so every theorem below holds for an arbitrary
choice of those primitives. -/

/-- A stored user record, the value kept in `users_db` (lines 120-130,
389-400).  `created_at` is a numeric timestamp. -/
structure StoredUser where
  id : String
  firstName : String
  lastName : String
  email : String
  institution : String
  department : String
  password_hash : String
  api_key : Option String := none
  newsletter : Bool := false
  created_at : Nat := 0
  deriving Repr, DecidableEq

/-- Embeds `users_db` (line 46): Python dict from email to user record, modelled as
an association list with unique keys looked up from the left. -/
abbrev UsersDb := List (String × StoredUser)

/-- Python `users_db[email]` / `email in users_db`. -/
def dbLookup : UsersDb → String → Option StoredUser
  | [], _ => none
  | (k, u) :: rest, e => if k = e then some u else dbLookup rest e

/-- Line 462: `users_db[current_user["email"]]["api_key"] = api_data.apiKey`,
the in-place mutation of the stored record. -/
def dbSetApiKey (db : UsersDb) (email : String) (key : String) : UsersDb :=
  db.map (fun p => if p.1 = email then (p.1, { p.2 with api_key := some key }) else p)

/-- Python truthiness of an optional string: `bool(None)` and `bool("")` are
both `False` (lines 413, 442, 480). -/
def truthyOptStr : Option String → Bool
  | none => false
  | some s => s ≠ ""

/-- Embeds `UserResponse` (lines 148-155). -/
structure UserResponse where
  id : String
  firstName : String
  lastName : String
  email : String
  institution : String
  department : String
  hasApiKey : Bool := false
  deriving Repr, DecidableEq

/-- The `UserResponse(...)` construction repeated at lines 406-414, 435-443
and 473-481: `hasApiKey = bool(user.api_key)`. -/
def mkUserResponse (u : StoredUser) : UserResponse :=
  { id := u.id, firstName := u.firstName, lastName := u.lastName,
    email := u.email, institution := u.institution, department := u.department,
    hasApiKey := truthyOptStr u.api_key }

/-- Line 43: `JWT_EXPIRATION_HOURS = 24`. -/
def jwtExpirationHours : Nat := 24

/-- The JWT payload built at lines 94-98: user id, email, absolute expiry. -/
structure JwtPayload where
  user_id : String
  email : String
  exp : Nat
  deriving Repr, DecidableEq

/-- A signed token: payload plus the symmetric MAC over it. -/
structure JwtToken where
  payload : JwtPayload
  sig : String
  deriving Repr, DecidableEq

/-- Embeds `create_jwt_token` (lines 92-99): expiry is issuance time plus 24 hours;
the signature is the MAC of the payload under the server secret. -/
def createJwtToken (macFn : String → JwtPayload → String) (secret : String)
    (u : StoredUser) (now : Nat) : JwtToken :=
  let p : JwtPayload :=
    { user_id := u.id, email := u.email, exp := now + jwtExpirationHours * 3600 }
  { payload := p, sig := macFn secret p }

/-- Embeds `verify_jwt_token` (lines 101-109): `jwt.decode` first verifies the
signature (401 "Invalid token" on mismatch), then the `exp` claim
(401 "Token has expired" once the expiry has passed). -/
def verifyJwtToken (macFn : String → JwtPayload → String) (secret : String)
    (now : Nat) (tok : JwtToken) : Except HTTPException JwtPayload :=
  if tok.sig = macFn secret tok.payload then
    if tok.payload.exp ≤ now then .error ⟨401, "Token has expired"⟩
    else .ok tok.payload
  else .error ⟨401, "Invalid token"⟩

/-- Embeds `get_current_user` (lines 111-117): decode the token, then resolve the
embedded email against the live `users_db`; the embedded user id is not
consulted. -/
def getCurrentUser (macFn : String → JwtPayload → String) (secret : String)
    (now : Nat) (db : UsersDb) (tok : JwtToken) : Except HTTPException StoredUser :=
  match verifyJwtToken macFn secret now tok with
  | .error e => .error e
  | .ok payload =>
    match dbLookup db payload.email with
    | none => .error ⟨401, "User not found"⟩
    | some u => .ok u

/-- Embeds `UserSignup` (lines 132-139). -/
structure SignupData where
  firstName : String
  lastName : String
  email : String
  institution : String
  department : String
  password : String
  newsletter : Bool := false
  deriving Repr, DecidableEq

/-- The `User(...)` record built at lines 389-397: the password is stored
hashed, no API key yet. -/
def mkStoredUser (hashFn : String → String) (d : SignupData) (freshId : String)
    (now : Nat) : StoredUser :=
  { id := freshId, firstName := d.firstName, lastName := d.lastName,
    email := d.email, institution := d.institution, department := d.department,
    password_hash := hashFn d.password, api_key := none,
    newsletter := d.newsletter, created_at := now }

/-- Embeds `signup` (lines 381-416): 400 "Email already registered" when the email is
present, otherwise insert the new record and mint a token.  The handler
returns the (possibly updated) store together with the HTTP outcome. -/
def signup (hashFn : String → String) (macFn : String → JwtPayload → String)
    (secret : String) (db : UsersDb) (d : SignupData) (freshId : String)
    (now : Nat) : UsersDb × Except HTTPException (JwtToken × UserResponse) :=
  if (dbLookup db d.email).isSome then
    (db, .error ⟨400, "Email already registered"⟩)
  else
    let u := mkStoredUser hashFn d freshId now
    (db ++ [(u.email, u)],
     .ok (createJwtToken macFn secret u now, mkUserResponse u))

/-- Embeds `verify_password` (lines 88-90): re-hash and compare. -/
def verifyPassword (hashFn : String → String) (password hashed : String) : Bool :=
  hashFn password = hashed

/-- Embeds `login` (lines 418-445): 401 "Invalid email or password" when the email is
absent or the hash mismatches, otherwise mint a token. -/
def login (hashFn : String → String) (macFn : String → JwtPayload → String)
    (secret : String) (db : UsersDb) (email password : String) (now : Nat) :
    Except HTTPException (JwtToken × UserResponse) :=
  match dbLookup db email with
  | none => .error ⟨401, "Invalid email or password"⟩
  | some u =>
    if verifyPassword hashFn password u.password_hash then
      .ok (createJwtToken macFn secret u now, mkUserResponse u)
    else .error ⟨401, "Invalid email or password"⟩

/-- One signup request together with the fresh uuid and timestamp the server
draws while handling it. -/
abbrev SignupEvent := SignupData × String × Nat

/-- A sequence of signup requests handled one after the other. -/
def runSignups (hashFn : String → String) (macFn : String → JwtPayload → String)
    (secret : String) (db : UsersDb) : List SignupEvent → UsersDb
  | [] => db
  | (d, freshId, now) :: rest =>
    runSignups hashFn macFn secret (signup hashFn macFn secret db d freshId now).1 rest

/-! ## LLM key selection and api-key validation (lines 55-81, 447-468) -/

/-- Embeds `get_llm_chat` (lines 55-67): the system fallback key from the
environment; 500 when it is not configured.  The result is the API key the
chat client will use. -/
def getLlmChat (systemKey : Option String) : Except HTTPException String :=
  match systemKey with
  | none => .error ⟨500, "LLM API key not configured"⟩
  | some k => .ok k

/-- Embeds `get_user_llm_chat` (lines 69-81): an empty (falsy) key falls back to the
system key, otherwise the candidate key itself is used. -/
def getUserLlmChat (apiKey : String) (systemKey : Option String) :
    Except HTTPException String :=
  if apiKey = "" then getLlmChat systemKey else .ok apiKey

/-- The key used by the generation endpoints (lines 516-517, 606-607):
`current_user.get("api_key")` is `None` or a string, and both `None` and `""`
are falsy in `get_user_llm_chat`. -/
def generationChatKey (u : StoredUser) (systemKey : Option String) :
    Except HTTPException String :=
  getUserLlmChat (u.api_key.getD "") systemKey

/-- Embeds `validate_api_key` (lines 447-468): build a chat client from the candidate
key, probe it with a trivial message, and on success store the *candidate*
string on the user record.  Any exception inside the `try` (including the
500 raised when no system key is configured) is caught and turned into
400 "Invalid API key or failed to connect to Gemini API".  `probe k` tells
whether a live call keyed by `k` succeeds. -/
def validateApiKey (probe : String → Bool) (systemKey : Option String)
    (db : UsersDb) (userEmail : String) (candidate : String) :
    UsersDb × Except HTTPException Bool :=
  match getUserLlmChat candidate systemKey with
  | .error _ => (db, .error ⟨400, "Invalid API key or failed to connect to Gemini API"⟩)
  | .ok k =>
    if probe k then (dbSetApiKey db userEmail candidate, .ok true)
    else (db, .error ⟨400, "Invalid API key or failed to connect to Gemini API"⟩)

/-! ## PDF text extraction (`extract_text_from_pdf`, lines 226-247) -/

/-- What `pypdf.PdfReader` yields for the uploaded bytes: either the stream is
not parseable as a PDF at all, or a list of pages, each of which either
yields its text or raises during `extract_text()`. -/
inductive PdfPage where
  | ok (text : String)
  | failed
  deriving Repr, DecidableEq

/-- Parse outcome of the uploaded byte stream. -/
inductive PdfParse where
  | unparsable (msg : String)
  | pages (ps : List PdfPage)
  deriving Repr, DecidableEq

/-- Detail string of the 400 raised at line 240. -/
def noReadableDetail : String :=
  "No readable text found in the PDF. Please ensure the PDF contains text content and is not a scanned image."

/-- Embeds `extract_text_from_pdf` (lines 226-247): concatenate the text of the
readable, non-blank pages with newline separators, skipping pages that raise;
400 (no readable text) when the concatenation is blank, 400 (unsupported
format) when the stream does not parse as a PDF. -/
def extractTextFromPdf : PdfParse → Except HTTPException String
  | .unparsable msg =>
    .error ⟨400, "Unable to process this PDF format. Please try with a different PDF file or ensure the PDF contains readable text. Error: " ++ msg⟩
  | .pages ps =>
    let text := ps.foldl (fun acc p =>
      match p with
      | .ok t => if pyStrip t ≠ "" then acc ++ t ++ "\n" else acc
      | .failed => acc) ""
    if pyStrip text = "" then .error ⟨400, noReadableDetail⟩ else .ok text

/-! ## Curriculum extraction (`upload_pdf`, lines 492-596) -/

/-- JSON values as returned by `json.loads` on the LLM response.  Objects are
association lists; `json.loads` keeps the last duplicate key, so the concrete
objects considered here have unique keys. -/
inductive Json where
  | null
  | bool (b : Bool)
  | num (n : Int)
  | str (s : String)
  | arr (elts : List Json)
  | obj (fields : List (String × Json))
  deriving Repr

/-- Python `dict.get` on a parsed JSON object. -/
def jLookup : List (String × Json) → String → Option Json
  | [], _ => none
  | (k, v) :: rest, key => if k = key then some v else jLookup rest key

/-- Python truthiness of a JSON-decoded value, as used by
`any([subject_names, lecture_topics])` at line 567. -/
def jTruthy : Json → Bool
  | .null => false
  | .bool b => b
  | .num n => n ≠ 0
  | .str s => s ≠ ""
  | .arr xs => !xs.isEmpty
  | .obj fs => !fs.isEmpty

/-- Embeds `isinstance(x, dict)` (line 571). -/
def isDict : Json → Bool
  | .obj _ => true
  | _ => false

/-- A JSON array holding exactly the given strings. -/
def jStrArr (l : List String) : Json :=
  .arr (l.map .str)

/-- Pydantic's `List[str]` field validation on string-shaped data. -/
def strListAux : List Json → Option (List String)
  | [] => some []
  | .str s :: rest => (strListAux rest).map (fun l => s :: l)
  | _ :: _ => none

/-- Pydantic's `List[str]` field validation on string-shaped data. -/
def asStrList : Json → Option (List String)
  | .arr xs => strListAux xs
  | _ => none

/-- Pydantic's `Dict[str, List[str]]` field validation on string-shaped data. -/
def mappingAux : List (String × Json) → Option (List (String × List String))
  | [] => some []
  | (k, v) :: rest =>
    match asStrList v with
    | some l => (mappingAux rest).map (fun m => (k, l) :: m)
    | none => none

/-- Pydantic's `Dict[str, List[str]]` field validation on string-shaped data. -/
def asFocusMapping : Json → Option (List (String × List String))
  | .obj fs => mappingAux fs
  | _ => none

/-- Embeds `PDFExtractionResult` (lines 170-176). -/
structure PDFExtractionResult where
  id : String
  filename : String
  subject_names : List String
  lecture_topics : List String
  lecture_focus_mapping : List (String × List String)
  extracted_at : Nat
  deriving Repr, DecidableEq

/-- Exceptions in flight inside the `upload_pdf` handler body: either a
`fastapi.HTTPException` or some other Python exception rendered by `str(e)`. -/
inductive PyExc where
  | http (e : HTTPException)
  | other (msg : String)
  deriving Repr, DecidableEq

/-- Lines 552-556: strip Markdown code fences from the LLM response
(`str.replace` replaces every occurrence). -/
def stripFences (s : String) : String :=
  let t := pyStrip s
  if pyStartsWith t "```json" then
    pyStrip (pyReplace (pyReplace t "```json" "") "```" "")
  else if pyStartsWith t "```" then
    pyStrip (pyReplace t "```" "")
  else t

/-- Lines 549-588: parse and validate the LLM response.  `jsonParse` stands
for `json.loads` on the fence-stripped text.  A parse failure hits the inner
`except json.JSONDecodeError` and raises a 500; `.get` on a non-dict raises an
`AttributeError`; a pydantic shape failure raises a `ValidationError`; the 400
"Could not extract meaningful data from PDF" is raised when both lists are
falsy (line 567); a mapping that is present but not a dict is coerced to the
empty dict (lines 570-572). -/
def validateFields (filename freshId : String) (now : Nat)
    (fields : List (String × Json)) : Except PyExc PDFExtractionResult :=
  if !(jTruthy ((jLookup fields "subject_names").getD (.arr []))
        || jTruthy ((jLookup fields "lecture_topics").getD (.arr []))) then
    .error (.http ⟨400, "Could not extract meaningful data from PDF"⟩)
  else
    match asStrList ((jLookup fields "subject_names").getD (.arr [])),
          asStrList ((jLookup fields "lecture_topics").getD (.arr [])),
          asFocusMapping
            (if isDict ((jLookup fields "lecture_focus_mapping").getD (.obj []))
             then (jLookup fields "lecture_focus_mapping").getD (.obj [])
             else .obj []) with
    | some sn, some lt, some m =>
      .ok { id := freshId, filename := filename, subject_names := sn,
            lecture_topics := lt, lecture_focus_mapping := m,
            extracted_at := now }
    | _, _, _ => .error (.other "pydantic validation error")

/-- Lines 549-588 continued: dispatch on the parse outcome. -/
def processResponse (jsonParse : String → Except String Json)
    (filename response freshId : String) (now : Nat) :
    Except PyExc PDFExtractionResult :=
  match jsonParse (stripFences response) with
  | .error m => .error (.http ⟨500, "Failed to parse LLM response: " ++ m⟩)
  | .ok (.obj fields) => validateFields filename freshId now fields
  | .ok _ => .error (.other "AttributeError: get on non-dict")

/-- Embeds `upload_pdf` (lines 492-596).  The extension check (lines 498-499) runs
before the `try` and keeps its 400.  Inside the `try`, a temporary file is
created (modelled by appending `tmp` to the list of existing temp files) and
the `finally` at lines 593-596 unlinks it on every path.  Crucially, the
`except Exception` at lines 590-591 also catches `fastapi.HTTPException`
(a subclass of `Exception`), so every error raised inside the body — the 400s
from `extract_text_from_pdf` included — is re-raised as a 500 whose detail
wraps `str(e)` (for an `HTTPException`, the status code, a colon and the detail).  `llm` is the
outcome of the gateway call, `jsonParse` stands for `json.loads`. -/
def uploadPdfBody (jsonParse : String → Except String Json) (filename : String)
    (pdf : PdfParse) (llm : Except String String) (freshId : String)
    (now : Nat) : Except PyExc PDFExtractionResult :=
  match extractTextFromPdf pdf with
  | .error e => .error (.http e)
  | .ok pdfText =>
    if pyStrip pdfText = "" then .error (.http ⟨400, "No text found in PDF"⟩)
    else
      match llm with
      | .error m => .error (.other m)
      | .ok response => processResponse jsonParse filename response freshId now

/-- Lines 590-591: the `except Exception` wrapper.  `fastapi.HTTPException`
subclasses `Exception`, so an HTTP error raised inside the body is also
caught here and re-raised as a 500; `str(e)` for an `HTTPException` renders
as the status code followed by a colon and the detail. -/
def wrapPdfFailure :
    Except PyExc PDFExtractionResult → Except HTTPException PDFExtractionResult
  | .ok r => .ok r
  | .error (.http e) =>
    .error ⟨500, "Failed to process PDF: " ++ toString e.status ++ ": " ++ e.detail⟩
  | .error (.other m) =>
    .error ⟨500, "Failed to process PDF: " ++ m⟩

/-- Embeds `upload_pdf` (lines 492-596) assembled: extension gate, temp-file
creation, body, `except Exception` wrapper, `finally` unlink. -/
def uploadPdf (jsonParse : String → Except String Json) (filename : String)
    (pdf : PdfParse) (llm : Except String String) (freshId : String)
    (now : Nat) (tmp : String) (fs : List String) :
    List String × Except HTTPException PDFExtractionResult :=
  if !(pyEndsWith (pyLower filename) ".pdf") then
    (fs, .error ⟨400, "File must be a PDF"⟩)
  else
    ((fs ++ [tmp]).erase tmp,
     wrapPdfFailure (uploadPdfBody jsonParse filename pdf llm freshId now))

/-! ## Lesson plan download (`download_lesson_plan`, lines 689-713) -/

/-- Embeds `download_lesson_plan` (lines 689-713): look the plan up by id; on a miss
the 404 raised at line 696 is caught by the `except Exception` at lines
712-713 and re-raised as a 500.  On a hit a temporary PDF is created with
`delete=False` (line 701), filled by `generate_lesson_plan_pdf` and handed to
`FileResponse`; nothing ever unlinks it, so the handler finishes with the
temporary file still present.  The returned string is the path served. -/
def downloadLessonPlan (store : List LessonPlan) (lessonPlanId : String)
    (tmp : String) (fs : List String) :
    List String × Except HTTPException String :=
  match store.find? (fun lp => lp.id = lessonPlanId) with
  | none =>
    (fs, .error ⟨500, "Failed to generate PDF: 404: Lesson plan not found"⟩)
  | some _ =>
    (fs ++ [tmp], .ok tmp)

/-! ## Concrete fixtures used by witnesses and counterexamples -/

def hFx : String → String := fun s => s ++ "#h"

def mFx : String → JwtPayload → String := fun secret p => secret ++ p.email ++ toString p.exp

def sdC4 : SignupData :=
  { firstName := "Ada", lastName := "L", email := "ada@uni.edu",
    institution := "U", department := "CS", password := "pw1", newsletter := false }

def evC4 : SignupEvent := (sdC4, "id-1", 0)

def uC5 : StoredUser :=
  { id := "id-5", firstName := "Bo", lastName := "K", email := "bo@uni.edu",
    institution := "U", department := "Math", password_hash := "pw5#h",
    api_key := none, newsletter := false, created_at := 0 }

def sdC5 : SignupData :=
  { firstName := "Eve", lastName := "M", email := "bo@uni.edu",
    institution := "V", department := "Phys", password := "other", newsletter := true }

def uC9 : StoredUser :=
  { id := "id-9", firstName := "Cy", lastName := "N", email := "cy@uni.edu",
    institution := "U", department := "CS", password_hash := "pw9#h",
    api_key := none, newsletter := false, created_at := 0 }

def tokC9 : JwtToken :=
  { payload := { user_id := "stale-id-not-in-store", email := "cy@uni.edu", exp := 86400 },
    sig := "seccy@uni.edu86400" }

def reqFix : LessonPlanRequest :=
  { subject_name := "Biology", lecture_topic := "Cells", focus_topic := "",
    blooms_taxonomy := "Apply", aqf_level := "AQF Level 7 - Bachelor Degree",
    lesson_duration := "1 hour" }

def lpIntro : LessonPlan :=
  { id := "lp-2", request_data := reqFix,
    content := "Introduction/Hook (10 minutes)", generated_at := 0 }

def lpD : LessonPlan :=
  { id := "plan-3", request_data := reqFix,
    content := "LEARNING OBJECTIVES\n- Know X", generated_at := 0 }

def dParse : String → Except String Json := fun _ => .error "unused"

def c1Parse : String → Except String Json := fun _ => .error "unused"

def c6Fields : List (String × Json) :=
  [("subject_names", jStrArr ["Biology 101"]),
   ("lecture_topics", jStrArr ["Cells"]),
   ("lecture_focus_mapping", .str "not an object")]

def c6Parse : String → Except String Json := fun _ => .ok (.obj c6Fields)

def c7Fields : List (String × Json) :=
  [("subject_names", jStrArr ["Biology 101"]),
   ("lecture_topics", jStrArr ["Cells"]),
   ("lecture_focus_mapping", .obj [("Mitosis week", jStrArr ["Spindle"])])]

def c7Parse : String → Except String Json := fun _ => .ok (.obj c7Fields)

def c7Result : PDFExtractionResult :=
  { id := "id-7", filename := "outline.pdf", subject_names := ["Biology 101"],
    lecture_topics := ["Cells"],
    lecture_focus_mapping := [("Mitosis week", ["Spindle"])], extracted_at := 3 }

/-! ## Helper lemmas -/

theorem dbLookup_append_of_none {db1 : UsersDb} {e : String} (db2 : UsersDb)
    (h : dbLookup db1 e = none) : dbLookup (db1 ++ db2) e = dbLookup db2 e := by
  induction db1 with
  | nil => rfl
  | cons p rest ih =>
    obtain ⟨k, u⟩ := p
    by_cases hk : k = e
    · simp [dbLookup, hk] at h
    · simp only [List.cons_append, dbLookup, if_neg hk] at h ⊢
      exact ih h

theorem dbLookup_append_of_some {db1 : UsersDb} {e : String} {u : StoredUser}
    (db2 : UsersDb) (h : dbLookup db1 e = some u) :
    dbLookup (db1 ++ db2) e = some u := by
  induction db1 with
  | nil => simp [dbLookup] at h
  | cons p rest ih =>
    obtain ⟨k, v⟩ := p
    by_cases hk : k = e
    · simp only [dbLookup, if_pos hk] at h
      simp only [List.cons_append, dbLookup, if_pos hk, h]
    · simp only [dbLookup, if_neg hk] at h
      simp only [List.cons_append, dbLookup, if_neg hk]
      exact ih h

theorem dbLookup_singleton_self (e : String) (u : StoredUser) :
    dbLookup [(e, u)] e = some u := by
  simp [dbLookup]

theorem dbLookup_cons (a : String) (b : StoredUser) (t : UsersDb) (e : String) :
    dbLookup ((a, b) :: t) e = if a = e then some b else dbLookup t e := rfl

theorem dbSetApiKey_cons (a : String) (b : StoredUser) (t : UsersDb) (e k : String) :
    dbSetApiKey ((a, b) :: t) e k
      = (if a = e then (a, { b with api_key := some k }) else (a, b)) :: dbSetApiKey t e k := rfl

theorem dbLookup_setApiKey (db : UsersDb) (e k : String) :
    dbLookup (dbSetApiKey db e k) e
      = (dbLookup db e).map (fun u => { u with api_key := some k }) := by
  induction db with
  | nil => rfl
  | cons p rest ih =>
    obtain ⟨a, b⟩ := p
    rw [dbSetApiKey_cons]
    by_cases h : a = e
    · rw [if_pos h, dbLookup_cons, if_pos h, dbLookup_cons, if_pos h]
      rfl
    · rw [if_neg h, dbLookup_cons, if_neg h, dbLookup_cons, if_neg h, ih]

theorem erase_append_singleton {l : List String} {a : String} (h : a ∉ l) :
    (l ++ [a]).erase a = l := by
  rw [List.erase_append_right _ h, List.erase_cons_head, List.append_nil]

theorem runSignups_lookup_of_ne (hashFn : String → String)
    (macFn : String → JwtPayload → String) (secret : String)
    (reqs : List SignupEvent) (db : UsersDb) (e : String)
    (h : ∀ x ∈ reqs, x.1.email ≠ e) :
    dbLookup (runSignups hashFn macFn secret db reqs) e = dbLookup db e := by
  induction reqs generalizing db with
  | nil => rfl
  | cons ev rest ih =>
    obtain ⟨d, freshId, now⟩ := ev
    have hne : d.email ≠ e := h (d, freshId, now) (by simp)
    have hrest : ∀ x ∈ rest, x.1.email ≠ e := fun x hx => h x (List.mem_cons_of_mem _ hx)
    show dbLookup (runSignups hashFn macFn secret
      (signup hashFn macFn secret db d freshId now).1 rest) e = dbLookup db e
    rw [ih _ hrest]
    unfold signup
    by_cases hdup : (dbLookup db d.email).isSome
    · simp [hdup]
    · simp only [hdup, Bool.false_eq_true, if_false, mkStoredUser]
      cases hl : dbLookup db e with
      | some u => exact dbLookup_append_of_some _ hl
      | none =>
        rw [dbLookup_append_of_none _ hl]
        simp [dbLookup, hne]

theorem runSignups_lookup (hashFn : String → String)
    (macFn : String → JwtPayload → String) (secret : String)
    (reqs : List SignupEvent) (db : UsersDb)
    (hnd : (reqs.map (fun x => x.1.email)).Nodup)
    (habs : ∀ x ∈ reqs, dbLookup db x.1.email = none)
    (x : SignupEvent) (hx : x ∈ reqs) :
    dbLookup (runSignups hashFn macFn secret db reqs) x.1.email
      = some (mkStoredUser hashFn x.1 x.2.1 x.2.2) := by
  induction reqs generalizing db with
  | nil => cases hx
  | cons ev rest ih =>
    obtain ⟨d, freshId, now⟩ := ev
    have hmap : ((d, freshId, now) :: rest).map (fun x => x.1.email)
        = d.email :: rest.map (fun x => x.1.email) := rfl
    rw [hmap, List.nodup_cons] at hnd
    obtain ⟨hni, hnd'⟩ := hnd
    have hdnone : dbLookup db d.email = none := habs (d, freshId, now) (by simp)
    have hdup : (dbLookup db d.email).isSome = false := by rw [hdnone]; rfl
    have hstep : (signup hashFn macFn secret db d freshId now).1
        = db ++ [(d.email, mkStoredUser hashFn d freshId now)] := by
      simp [signup, hdup, mkStoredUser]
    have hrun : runSignups hashFn macFn secret db ((d, freshId, now) :: rest)
        = runSignups hashFn macFn secret
            (db ++ [(d.email, mkStoredUser hashFn d freshId now)]) rest := by
      show runSignups hashFn macFn secret
        (signup hashFn macFn secret db d freshId now).1 rest = _
      rw [hstep]
    rw [hrun]
    rcases List.mem_cons.mp hx with hx1 | hx2
    · subst hx1
      have hnotin : ∀ y ∈ rest, y.1.email ≠ d.email := by
        intro y hy heq
        exact hni (heq ▸ List.mem_map_of_mem _ hy)
      rw [runSignups_lookup_of_ne hashFn macFn secret rest _ _ hnotin]
      rw [dbLookup_append_of_none _ hdnone]
      exact dbLookup_singleton_self _ _
    · have habs' : ∀ y ∈ rest,
          dbLookup (db ++ [(d.email, mkStoredUser hashFn d freshId now)]) y.1.email = none := by
        intro y hy
        have hyne : y.1.email ≠ d.email := fun heq =>
          hni (heq ▸ List.mem_map_of_mem _ hy)
        rw [dbLookup_append_of_none _ (habs y (List.mem_cons_of_mem _ hy))]
        rw [dbLookup_cons, if_neg (fun hh => hyne hh.symm)]
        rfl
      exact ih _ hnd' habs' hx2

theorem strListAux_map_str (l : List String) : strListAux (l.map Json.str) = some l := by
  induction l with
  | nil => rfl
  | cons a t ih => simp [strListAux, ih]

theorem asStrList_jStrArr (l : List String) : asStrList (jStrArr l) = some l := by
  simp [asStrList, jStrArr, strListAux_map_str]

theorem jTruthy_jStrArr (l : List String) : jTruthy (jStrArr l) = !l.isEmpty := by
  cases l <;> rfl

theorem classifyPlain_no_subsection (l t : String) :
    Flowable.para t PStyle.subsectionHeading ∉ classifyPlain l := by
  unfold classifyPlain
  by_cases h1 : pyStrip l = ""
  · simp [h1]
  · by_cases h2 : pyStartsWith (pyStrip l) "- " <;> simp [h1, h2]

theorem login_of_lookup_some (hashFn : String → String)
    (macFn : String → JwtPayload → String) (secret : String)
    {db : UsersDb} {email : String} {u : StoredUser} (password : String)
    (now : Nat) (h : dbLookup db email = some u) :
    login hashFn macFn secret db email password now
      = if verifyPassword hashFn password u.password_hash
        then .ok (createJwtToken macFn secret u now, mkUserResponse u)
        else .error ⟨401, "Invalid email or password"⟩ := by
  unfold login
  rw [h]

theorem verifyPassword_self (hashFn : String → String) (p : String) :
    verifyPassword hashFn p (hashFn p) = true := by
  simp [verifyPassword]

theorem getCurrentUser_of_verify_ok {macFn : String → JwtPayload → String}
    {secret : String} {now : Nat} {tok : JwtToken}
    (h : verifyJwtToken macFn secret now tok = .ok tok.payload) (db : UsersDb) :
    getCurrentUser macFn secret now db tok
      = match dbLookup db tok.payload.email with
        | none => .error ⟨401, "User not found"⟩
        | some u => .ok u := by
  unfold getCurrentUser
  rw [h]

theorem getCurrentUser_of_verify_error {macFn : String → JwtPayload → String}
    {secret : String} {now : Nat} {tok : JwtToken} {e : HTTPException}
    (h : verifyJwtToken macFn secret now tok = .error e) (db : UsersDb) :
    getCurrentUser macFn secret now db tok = .error e := by
  unfold getCurrentUser
  rw [h]

/-! ## Claim C4: signup, then login, then authenticate -/

/-- C4: after any sequence of valid signups with pairwise distinct emails
(starting from a fresh store), logging in with one of those emails and its
original password succeeds, and the token this returns is accepted by
`get_current_user` at any time before its expiry, resolving to exactly the
record created at signup. -/
theorem signup_login_authenticate_roundtrip
    (hashFn : String → String) (macFn : String → JwtPayload → String)
    (secret : String) (reqs : List SignupEvent)
    (hnd : (reqs.map (fun x => x.1.email)).Nodup)
    (x : SignupEvent) (hx : x ∈ reqs) (tLogin tAuth : Nat)
    (hexp : tAuth < tLogin + jwtExpirationHours * 3600) :
    login hashFn macFn secret (runSignups hashFn macFn secret [] reqs)
        x.1.email x.1.password tLogin
      = .ok (createJwtToken macFn secret (mkStoredUser hashFn x.1 x.2.1 x.2.2) tLogin,
             mkUserResponse (mkStoredUser hashFn x.1 x.2.1 x.2.2))
    ∧ getCurrentUser macFn secret tAuth (runSignups hashFn macFn secret [] reqs)
        (createJwtToken macFn secret (mkStoredUser hashFn x.1 x.2.1 x.2.2) tLogin)
      = .ok (mkStoredUser hashFn x.1 x.2.1 x.2.2) := by
  have hlook := runSignups_lookup hashFn macFn secret reqs []
    hnd (fun _ _ => rfl) x hx
  set u := mkStoredUser hashFn x.1 x.2.1 x.2.2 with hu
  constructor
  · rw [login_of_lookup_some hashFn macFn secret x.1.password tLogin hlook]
    have hvp : verifyPassword hashFn x.1.password u.password_hash = true := by
      rw [hu]
      exact verifyPassword_self hashFn x.1.password
    rw [if_pos hvp]
  · have hv : verifyJwtToken macFn secret tAuth (createJwtToken macFn secret u tLogin)
        = .ok (createJwtToken macFn secret u tLogin).payload := by
      unfold verifyJwtToken
      rw [if_pos (show (createJwtToken macFn secret u tLogin).sig
        = macFn secret (createJwtToken macFn secret u tLogin).payload from rfl)]
      rw [if_neg (show ¬ ((createJwtToken macFn secret u tLogin).payload.exp ≤ tAuth) by
        show ¬ (tLogin + jwtExpirationHours * 3600 ≤ tAuth)
        omega)]
    rw [getCurrentUser_of_verify_ok hv]
    rw [show (createJwtToken macFn secret u tLogin).payload.email = x.1.email from rfl]
    rw [hlook]

/-- C4 witness: the round trip at a concrete signup sequence. -/
theorem signup_login_authenticate_roundtrip_witness :
    login hFx mFx "sec" (runSignups hFx mFx "sec" [] [evC4]) "ada@uni.edu" "pw1" 100
      = .ok (createJwtToken mFx "sec" (mkStoredUser hFx sdC4 "id-1" 0) 100,
             mkUserResponse (mkStoredUser hFx sdC4 "id-1" 0))
    ∧ getCurrentUser mFx "sec" 200 (runSignups hFx mFx "sec" [] [evC4])
        (createJwtToken mFx "sec" (mkStoredUser hFx sdC4 "id-1" 0) 100)
      = .ok (mkStoredUser hFx sdC4 "id-1" 0) :=
  signup_login_authenticate_roundtrip hFx mFx "sec" [evC4]
    (by simp) evC4 (by simp) 100 200 (by decide)

/-! ## Claim C5: duplicate signup fails with 400 and mutates nothing -/

/-- C5: when the email is already registered, `signup` returns the 400
"Email already registered" error, leaves the store untouched and in
particular leaves the existing record unchanged. -/
theorem signup_duplicate_email_rejected
    (hashFn : String → String) (macFn : String → JwtPayload → String)
    (secret : String) (db : UsersDb) (d : SignupData) (freshId : String)
    (now : Nat) (u : StoredUser)
    (h : dbLookup db d.email = some u) :
    signup hashFn macFn secret db d freshId now
      = (db, .error ⟨400, "Email already registered"⟩)
    ∧ dbLookup (signup hashFn macFn secret db d freshId now).1 d.email = some u := by
  have hs : (dbLookup db d.email).isSome = true := by rw [h]; rfl
  constructor
  · simp [signup, hs]
  · simp [signup, hs, h]

/-- C5 witness: a concrete duplicate signup. -/
theorem signup_duplicate_email_rejected_witness :
    signup hFx mFx "sec" [("bo@uni.edu", uC5)] sdC5 "id-6" 9
      = ([("bo@uni.edu", uC5)], .error ⟨400, "Email already registered"⟩)
    ∧ dbLookup (signup hFx mFx "sec" [("bo@uni.edu", uC5)] sdC5 "id-6" 9).1 "bo@uni.edu"
      = some uC5 :=
  signup_duplicate_email_rejected hFx mFx "sec" [("bo@uni.edu", uC5)] sdC5 "id-6" 9 uC5 rfl

/-! ## Claim C9: characterisation of authenticate -/

/-- C9: `get_current_user` accepts a token exactly when the MAC matches, the
expiry has not passed and the embedded email is currently a key of
`users_db`; on success it returns whatever record is stored under that email
(the embedded user id is never compared against the store — the outcome
depends on the store only through the email lookup), and a mutation of the
record made after the token was minted (such as attaching an API key) is
visible through the same token. -/
theorem authenticate_uses_live_email_record
    (macFn : String → JwtPayload → String) (secret : String) (now : Nat)
    (db db' : UsersDb) (tok : JwtToken) (k : String) (u : StoredUser)
    (hagree : dbLookup db' tok.payload.email = dbLookup db tok.payload.email) :
    ((getCurrentUser macFn secret now db tok).isOk = true
       ↔ tok.sig = macFn secret tok.payload ∧ now < tok.payload.exp
           ∧ (dbLookup db tok.payload.email).isSome = true)
    ∧ (getCurrentUser macFn secret now db tok = .ok u →
         dbLookup db tok.payload.email = some u)
    ∧ getCurrentUser macFn secret now db' tok = getCurrentUser macFn secret now db tok
    ∧ (getCurrentUser macFn secret now db tok = .ok u →
         getCurrentUser macFn secret now (dbSetApiKey db tok.payload.email k) tok
           = .ok { u with api_key := some k }) := by
  by_cases hsig : tok.sig = macFn secret tok.payload
  · by_cases hexp : tok.payload.exp ≤ now
    · have hv : verifyJwtToken macFn secret now tok = .error ⟨401, "Token has expired"⟩ := by
        unfold verifyJwtToken
        rw [if_pos hsig, if_pos hexp]
      refine ⟨?_, ?_, ?_, ?_⟩
      · constructor
        · intro h
          rw [getCurrentUser_of_verify_error hv db] at h
          simp [Except.isOk, Except.toBool] at h
        · rintro ⟨-, h2, -⟩
          exact absurd h2 (Nat.not_lt.mpr hexp)
      · intro h
        rw [getCurrentUser_of_verify_error hv db] at h
        cases h
      · rw [getCurrentUser_of_verify_error hv db', getCurrentUser_of_verify_error hv db]
      · intro h
        rw [getCurrentUser_of_verify_error hv db] at h
        cases h
    · have hv : verifyJwtToken macFn secret now tok = .ok tok.payload := by
        unfold verifyJwtToken
        rw [if_pos hsig, if_neg hexp]
      cases hdb : dbLookup db tok.payload.email with
      | none =>
        refine ⟨?_, ?_, ?_, ?_⟩
        · constructor
          · intro h
            rw [getCurrentUser_of_verify_ok hv db, hdb] at h
            simp [Except.isOk, Except.toBool] at h
          · rintro ⟨-, -, h3⟩
            simp at h3
        · intro h
          rw [getCurrentUser_of_verify_ok hv db, hdb] at h
          cases h
        · rw [getCurrentUser_of_verify_ok hv db', getCurrentUser_of_verify_ok hv db, hagree]
        · intro h
          rw [getCurrentUser_of_verify_ok hv db, hdb] at h
          cases h
      | some w =>
        refine ⟨?_, ?_, ?_, ?_⟩
        · constructor
          · intro _
            exact ⟨hsig, Nat.not_le.mp hexp, rfl⟩
          · intro _
            rw [getCurrentUser_of_verify_ok hv db, hdb]
            rfl
        · intro h
          rw [getCurrentUser_of_verify_ok hv db, hdb] at h
          cases h
          rfl
        · rw [getCurrentUser_of_verify_ok hv db', getCurrentUser_of_verify_ok hv db, hagree]
        · intro h
          rw [getCurrentUser_of_verify_ok hv db, hdb] at h
          cases h
          rw [getCurrentUser_of_verify_ok hv (dbSetApiKey db tok.payload.email k),
            dbLookup_setApiKey, hdb]
          rfl
  · have hv : verifyJwtToken macFn secret now tok = .error ⟨401, "Invalid token"⟩ := by
      unfold verifyJwtToken
      rw [if_neg hsig]
    refine ⟨?_, ?_, ?_, ?_⟩
    · constructor
      · intro h
        rw [getCurrentUser_of_verify_error hv db] at h
        simp [Except.isOk, Except.toBool] at h
      · rintro ⟨h1, -, -⟩
        exact absurd h1 hsig
    · intro h
      rw [getCurrentUser_of_verify_error hv db] at h
      cases h
    · rw [getCurrentUser_of_verify_error hv db', getCurrentUser_of_verify_error hv db]
    · intro h
      rw [getCurrentUser_of_verify_error hv db] at h
      cases h

/-- C9 witness: a concrete accepted token whose embedded user id matches
nothing in the store, resolved against the live record. -/
theorem authenticate_uses_live_email_record_witness :
    ((getCurrentUser mFx "sec" 5 [("cy@uni.edu", uC9)] tokC9).isOk = true
       ↔ tokC9.sig = mFx "sec" tokC9.payload ∧ 5 < tokC9.payload.exp
           ∧ (dbLookup [("cy@uni.edu", uC9)] tokC9.payload.email).isSome = true)
    ∧ (getCurrentUser mFx "sec" 5 [("cy@uni.edu", uC9)] tokC9 = .ok uC9 →
         dbLookup [("cy@uni.edu", uC9)] tokC9.payload.email = some uC9)
    ∧ getCurrentUser mFx "sec" 5 [("x", uC5), ("cy@uni.edu", uC9)] tokC9
        = getCurrentUser mFx "sec" 5 [("cy@uni.edu", uC9)] tokC9
    ∧ (getCurrentUser mFx "sec" 5 [("cy@uni.edu", uC9)] tokC9 = .ok uC9 →
         getCurrentUser mFx "sec" 5 (dbSetApiKey [("cy@uni.edu", uC9)] tokC9.payload.email "AI-key") tokC9
           = .ok { uC9 with api_key := some "AI-key" }) :=
  authenticate_uses_live_email_record mFx "sec" 5
    [("cy@uni.edu", uC9)] [("x", uC5), ("cy@uni.edu", uC9)] tokC9 "AI-key" uC9 rfl

/-! ## Claim C10: empty-string API key validation -/

/-- C10: with an empty-string candidate key, the live probe is keyed by the
system fallback key; when that probe succeeds the empty string itself is
stored as the user's `api_key`, so a later generation call on the updated
record still falls back to the system key and the profile flag
`hasApiKey` is `false`. -/
theorem validate_empty_key_uses_system_key
    (probe : String → Bool) (sk : String) (db : UsersDb) (email : String)
    (u : StoredUser)
    (hu : dbLookup db email = some u) (hp : probe sk = true) :
    getUserLlmChat "" (some sk) = .ok sk
    ∧ validateApiKey probe (some sk) db email ""
        = (dbSetApiKey db email "", .ok true)
    ∧ dbLookup (dbSetApiKey db email "") email = some { u with api_key := some "" }
    ∧ generationChatKey { u with api_key := some "" } (some sk) = .ok sk
    ∧ (mkUserResponse { u with api_key := some "" }).hasApiKey = false := by
  refine ⟨rfl, ?_, ?_, rfl, by simp [mkUserResponse, truthyOptStr]⟩
  · simp [validateApiKey, getUserLlmChat, getLlmChat, hp]
  · rw [dbLookup_setApiKey, hu]
    rfl

/-! ## Claim C2: the minutes-line heuristic -/

/-- C2 counterexample: content consisting of the single line
"Introduction/Hook (10 minutes)" — a block whose first line is not an
ALL-CAPS heading — renders that line as a plain paragraph and nowhere as a
subsection heading, refuting the claim that the minutes heuristic applies in
blocks without an ALL-CAPS section heading. -/
theorem minutes_line_without_heading_is_paragraph :
    Flowable.para "Introduction/Hook (10 minutes)" PStyle.normal ∈ buildStory lpIntro
    ∧ ((buildStory lpIntro).all
        (fun f => f ≠ Flowable.para "Introduction/Hook (10 minutes)" PStyle.subsectionHeading))
        = true := by
  constructor
  · decide
  · decide

/-- C2 amended: a line containing `(` together with `minutes)` or ending in
`minutes` is rendered as a subsection heading exactly within the
classification applied to the lines after the first of a block whose first
line is ALL-CAPS and under 100 characters; a block whose first line fails
that test emits no subsection heading at all, its minutes-lines becoming
bullets or plain paragraphs. -/
theorem minutes_subsection_only_under_caps_heading
    (lines : List String) (l : String) (lines2 : List String) (t : String)
    (hcaps : isHeadingLine (pyStrip (lines.headD "")) = true)
    (hmem : l ∈ lines.tail)
    (hsub : isSubsectionLine (pyStrip l) = true)
    (hne : ¬ (pyStrip l = ""))
    (hnocaps : isHeadingLine (pyStrip (lines2.headD "")) = false) :
    Flowable.para (pyStrip l) PStyle.subsectionHeading ∈ processBlockLines lines
    ∧ ((processBlockLines lines2).all
        (fun f => f ≠ Flowable.para t PStyle.subsectionHeading)) = true := by
  constructor
  · unfold processBlockLines
    rw [hcaps, if_pos rfl]
    apply List.mem_cons_of_mem
    rw [List.mem_flatten]
    refine ⟨classifyBody l, List.mem_map_of_mem _ hmem, ?_⟩
    unfold classifyBody
    rw [if_neg hne, if_pos hsub]
    exact List.mem_singleton.mpr rfl
  · rw [List.all_eq_true]
    intro f hf
    unfold processBlockLines at hf
    rw [hnocaps, if_neg (by decide : ¬ ((false : Bool) = true))] at hf
    obtain ⟨fl, hfl, hx⟩ := List.mem_flatten.mp hf
    obtain ⟨l2, -, rfl⟩ := List.mem_map.mp hfl
    rw [decide_eq_true_eq]
    intro heq
    rw [heq] at hx
    exact classifyPlain_no_subsection l2 t hx

/-- C2 amended witness: inside an ALL-CAPS block the minutes line is a
subsection heading; in the headingless block it never is. -/
theorem minutes_subsection_only_under_caps_heading_witness :
    Flowable.para "Introduction/Hook (10 minutes)" PStyle.subsectionHeading
      ∈ processBlockLines ["LESSON STRUCTURE", " Introduction/Hook (10 minutes) "]
    ∧ ((processBlockLines ["Introduction/Hook (10 minutes)", "- Recap (5 minutes)"]).all
        (fun f => f ≠ Flowable.para "Introduction/Hook (10 minutes)" PStyle.subsectionHeading))
        = true :=
  minutes_subsection_only_under_caps_heading
    ["LESSON STRUCTURE", " Introduction/Hook (10 minutes) "]
    " Introduction/Hook (10 minutes) "
    ["Introduction/Hook (10 minutes)", "- Recap (5 minutes)"]
    "Introduction/Hook (10 minutes)"
    (by decide) (by decide) (by decide) (by decide) (by decide)

/-! ## Claim C3: temporary files -/

/-- C3 counterexample: a successful `download_lesson_plan` call finishes with
its generated temporary PDF still present (started with no temp files, the
handler ends with one), refuting the claim that every handler removes its
temporary file on every path. -/
theorem download_leaves_temp_file :
    (downloadLessonPlan [lpD] "plan-3" "tmp3.pdf" []).1 = ["tmp3.pdf"]
    ∧ ((downloadLessonPlan [lpD] "plan-3" "tmp3.pdf" []).1.isEmpty) = false := by
  constructor
  · rfl
  · rfl

/-- C3 amended: `upload_pdf` always removes its temporary copy of the upload
(`try`/`finally`), on success and on every error path alike; but
`download_lesson_plan` creates the generated PDF with `delete=False` and
never unlinks it — the handler finishes with that file still present
whenever the lesson plan exists (the file must outlive the handler for
`FileResponse` to serve it). -/
theorem upload_cleans_download_leaks
    (jsonParse : String → Except String Json) (filename : String)
    (pdf : PdfParse) (llm : Except String String) (freshId : String)
    (now : Nat) (tmp : String) (fs : List String)
    (store : List LessonPlan) (planId tmp2 : String) (fs2 : List String)
    (lp : LessonPlan)
    (hfresh : tmp ∉ fs)
    (hfound : store.find? (fun p => p.id = planId) = some lp) :
    (uploadPdf jsonParse filename pdf llm freshId now tmp fs).1 = fs
    ∧ (downloadLessonPlan store planId tmp2 fs2).1 = fs2 ++ [tmp2] := by
  constructor
  · unfold uploadPdf
    cases hb : pyEndsWith (pyLower filename) ".pdf" with
    | false =>
      rw [if_pos (by decide : ((!false) = true))]
    | true =>
      rw [if_neg (by decide : ¬ ((!true) = true))]
      exact erase_append_singleton hfresh
  · unfold downloadLessonPlan
    rw [hfound]

/-- C3 amended witness: a concrete upload restores the temp-file set; a
concrete successful download adds its generated PDF and never removes it. -/
theorem upload_cleans_download_leaks_witness :
    (uploadPdf dParse "scan2.pdf" (.pages [.ok "text"]) (.ok "r") "id-3" 0 "t9.pdf" ["other.tmp"]).1
      = ["other.tmp"]
    ∧ (downloadLessonPlan [lpD] "plan-3" "t10.pdf" ["keep.tmp"]).1
      = ["keep.tmp"] ++ ["t10.pdf"] :=
  upload_cleans_download_leaks dParse "scan2.pdf" (.pages [.ok "text"]) (.ok "r")
    "id-3" 0 "t9.pdf" ["other.tmp"] [lpD] "plan-3" "t10.pdf" ["keep.tmp"] lpD
    (by decide) rfl

/-! ## Pipeline reduction lemmas shared by the upload claims -/

theorem uploadPdf_ext_ok (jsonParse : String → Except String Json)
    {filename : String} (pdf : PdfParse) (llm : Except String String)
    (freshId : String) (now : Nat) (tmp : String) (fs : List String)
    (hext : pyEndsWith (pyLower filename) ".pdf" = true) :
    uploadPdf jsonParse filename pdf llm freshId now tmp fs
      = ((fs ++ [tmp]).erase tmp,
         wrapPdfFailure (uploadPdfBody jsonParse filename pdf llm freshId now)) := by
  unfold uploadPdf
  rw [hext, if_neg (by decide : ¬ ((!true) = true))]

theorem uploadPdfBody_of_text (jsonParse : String → Except String Json)
    (filename : String) {pdf : PdfParse} (response freshId : String) (now : Nat)
    {pdfText : String}
    (htext : extractTextFromPdf pdf = .ok pdfText)
    (htrim : ¬ (pyStrip pdfText = "")) :
    uploadPdfBody jsonParse filename pdf (.ok response) freshId now
      = processResponse jsonParse filename response freshId now := by
  unfold uploadPdfBody
  rw [htext]
  show (if pyStrip pdfText = "" then Except.error (PyExc.http ⟨400, "No text found in PDF"⟩)
        else processResponse jsonParse filename response freshId now) = _
  rw [if_neg htrim]

theorem processResponse_obj {jsonParse : String → Except String Json}
    (filename : String) {response : String} (freshId : String) (now : Nat)
    {fields : List (String × Json)}
    (hparse : jsonParse (stripFences response) = .ok (.obj fields)) :
    processResponse jsonParse filename response freshId now
      = validateFields filename freshId now fields := by
  unfold processResponse
  rw [hparse]

theorem validateFields_ok (filename freshId : String) (now : Nat)
    (fields : List (String × Json)) (sn lt : List String) (mjson : Json)
    (mm : List (String × List String))
    (hsn : (jLookup fields "subject_names").getD (.arr []) = jStrArr sn)
    (hlt : (jLookup fields "lecture_topics").getD (.arr []) = jStrArr lt)
    (hm : (jLookup fields "lecture_focus_mapping").getD (.obj []) = mjson)
    (hne : sn ≠ [] ∨ lt ≠ [])
    (hmm : asFocusMapping (if isDict mjson then mjson else .obj []) = some mm) :
    validateFields filename freshId now fields
      = .ok { id := freshId, filename := filename, subject_names := sn,
              lecture_topics := lt, lecture_focus_mapping := mm,
              extracted_at := now } := by
  unfold validateFields
  rw [hsn, hlt, hm]
  have hguard : (jTruthy (jStrArr sn) || jTruthy (jStrArr lt)) = true := by
    rcases hne with h | h
    · rw [jTruthy_jStrArr]
      cases sn
      · exact absurd rfl h
      · simp
    · rw [jTruthy_jStrArr, jTruthy_jStrArr]
      cases lt
      · exact absurd rfl h
      · simp
  rw [hguard, if_neg (by decide : ¬ ((!true) = true))]
  rw [asStrList_jStrArr, asStrList_jStrArr, hmm]

/-! ## Claim C1: unreadable PDF answers 500, not 400 -/

/-- C1 (code-bug evidence): an authenticated upload of `scan.pdf` that parses
as a PDF whose single page yields only whitespace makes
`extract_text_from_pdf` raise the 400 `NoReadableText` error, but the
endpoint answers 500: the `except Exception` at lines 590-591 catches the
`HTTPException` (a subclass of `Exception`) and re-raises it wrapped as
"Failed to process PDF: 400: ...". -/
theorem upload_unreadable_pdf_returns_500 :
    extractTextFromPdf (.pages [.ok "   "]) = .error ⟨400, noReadableDetail⟩
    ∧ (uploadPdf c1Parse "scan.pdf" (.pages [.ok "   "]) (.ok "resp") "id-1" 0 "tmp1" []).2
        = .error ⟨500, "Failed to process PDF: 400: " ++ noReadableDetail⟩ :=
  ⟨rfl, rfl⟩

/-! ## Claim C6: non-object mapping is coerced to the empty mapping -/

/-- C6: when the LLM response parses as a JSON object whose
`lecture_focus_mapping` is present but not an object, while `subject_names`
and `lecture_topics` are string arrays at least one of which is non-empty,
the upload succeeds and the persisted `PDFExtractionResult` carries the empty
mapping. -/
theorem extraction_lenient_on_nonobject_mapping
    (jsonParse : String → Except String Json) (filename response freshId : String)
    (now : Nat) (tmp : String) (fs : List String) (pdf : PdfParse)
    (pdfText : String) (fields : List (String × Json)) (v : Json)
    (sn lt : List String)
    (hext : pyEndsWith (pyLower filename) ".pdf" = true)
    (htext : extractTextFromPdf pdf = .ok pdfText)
    (htrim : ¬ (pyStrip pdfText = ""))
    (hparse : jsonParse (stripFences response) = .ok (.obj fields))
    (hsn : (jLookup fields "subject_names").getD (.arr []) = jStrArr sn)
    (hlt : (jLookup fields "lecture_topics").getD (.arr []) = jStrArr lt)
    (hv : (jLookup fields "lecture_focus_mapping").getD (.obj []) = v)
    (hvnd : isDict v = false)
    (hne : sn ≠ [] ∨ lt ≠ []) :
    (uploadPdf jsonParse filename pdf (.ok response) freshId now tmp fs).2
      = .ok { id := freshId, filename := filename, subject_names := sn,
              lecture_topics := lt, lecture_focus_mapping := [],
              extracted_at := now } := by
  rw [uploadPdf_ext_ok jsonParse pdf (.ok response) freshId now tmp fs hext]
  show wrapPdfFailure (uploadPdfBody jsonParse filename pdf (.ok response) freshId now) = _
  rw [uploadPdfBody_of_text jsonParse filename response freshId now htext htrim]
  rw [processResponse_obj filename freshId now hparse]
  rw [validateFields_ok filename freshId now fields sn lt v [] hsn hlt hv hne
    (by rw [hvnd]; rfl)]
  rfl

/-- C6 witness: a concrete upload whose mapping field is a string. -/
theorem extraction_lenient_on_nonobject_mapping_witness :
    (uploadPdf c6Parse "outline.pdf" (.pages [.ok "Course text"]) (.ok "resp") "id-6" 5 "tmp6" []).2
      = .ok { id := "id-6", filename := "outline.pdf", subject_names := ["Biology 101"],
              lecture_topics := ["Cells"], lecture_focus_mapping := [],
              extracted_at := 5 } :=
  extraction_lenient_on_nonobject_mapping c6Parse "outline.pdf" "resp" "id-6" 5 "tmp6" []
    (.pages [.ok "Course text"]) "Course text\n" c6Fields (.str "not an object")
    ["Biology 101"] ["Cells"]
    (by decide) rfl (by decide) rfl rfl rfl rfl rfl (Or.inl (by decide))

/-! ## Claim C7: mapping keys versus the lecture-topics list -/

/-- C7 counterexample: a successful upload persists a mapping whose key
"Mitosis week" is not an element of `lecture_topics` (`["Cells"]`), so the
claimed subset invariant fails on the persisted record. -/
theorem upload_persists_mapping_key_outside_topics :
    (uploadPdf c7Parse "outline.pdf" (.pages [.ok "Course text"]) (.ok "resp") "id-7" 3 "tmp7" []).2
      = .ok c7Result
    ∧ (c7Result.lecture_focus_mapping.map Prod.fst).contains "Mitosis week" = true
    ∧ c7Result.lecture_topics.contains "Mitosis week" = false :=
  ⟨rfl, rfl, rfl⟩

/-- C7 amended: a successful upload persists the parsed mapping verbatim when
the field is a JSON object of the right shape (and the empty mapping when it
is absent or not an object — see the C6 theorem); no comparison of its keys
against `lecture_topics` is performed, so the keys need not be a subset of
that list. -/
theorem upload_mapping_persisted_verbatim
    (jsonParse : String → Except String Json) (filename response freshId : String)
    (now : Nat) (tmp : String) (fs : List String) (pdf : PdfParse)
    (pdfText : String) (fields : List (String × Json))
    (sn lt : List String) (m : List (String × Json)) (mm : List (String × List String))
    (hext : pyEndsWith (pyLower filename) ".pdf" = true)
    (htext : extractTextFromPdf pdf = .ok pdfText)
    (htrim : ¬ (pyStrip pdfText = ""))
    (hparse : jsonParse (stripFences response) = .ok (.obj fields))
    (hsn : (jLookup fields "subject_names").getD (.arr []) = jStrArr sn)
    (hlt : (jLookup fields "lecture_topics").getD (.arr []) = jStrArr lt)
    (hm : (jLookup fields "lecture_focus_mapping").getD (.obj []) = .obj m)
    (hmm : mappingAux m = some mm)
    (hne : sn ≠ [] ∨ lt ≠ []) :
    (uploadPdf jsonParse filename pdf (.ok response) freshId now tmp fs).2
      = .ok { id := freshId, filename := filename, subject_names := sn,
              lecture_topics := lt, lecture_focus_mapping := mm,
              extracted_at := now } := by
  rw [uploadPdf_ext_ok jsonParse pdf (.ok response) freshId now tmp fs hext]
  show wrapPdfFailure (uploadPdfBody jsonParse filename pdf (.ok response) freshId now) = _
  rw [uploadPdfBody_of_text jsonParse filename response freshId now htext htrim]
  rw [processResponse_obj filename freshId now hparse]
  rw [validateFields_ok filename freshId now fields sn lt (.obj m) mm hsn hlt hm hne hmm]
  rfl

/-- C7 amended witness: the mapping `{"Mitosis week": ["Spindle"]}` is
persisted verbatim although its key lies outside `lecture_topics`. -/
theorem upload_mapping_persisted_verbatim_witness :
    (uploadPdf c7Parse "outline.pdf" (.pages [.ok "Course text"]) (.ok "resp") "id-7" 3 "tmp7" []).2
      = .ok { id := "id-7", filename := "outline.pdf", subject_names := ["Biology 101"],
              lecture_topics := ["Cells"],
              lecture_focus_mapping := [("Mitosis week", ["Spindle"])],
              extracted_at := 3 } :=
  upload_mapping_persisted_verbatim c7Parse "outline.pdf" "resp" "id-7" 3 "tmp7" []
    (.pages [.ok "Course text"]) "Course text\n" c7Fields
    ["Biology 101"] ["Cells"] [("Mitosis week", jStrArr ["Spindle"])]
    [("Mitosis week", ["Spindle"])]
    (by decide) rfl (by decide) rfl rfl rfl rfl rfl (Or.inl (by decide))

/-- C10 witness: the concrete empty-key validation. -/
theorem validate_empty_key_uses_system_key_witness :
    getUserLlmChat "" (some "SYS-KEY") = .ok "SYS-KEY"
    ∧ validateApiKey (fun _ => true) (some "SYS-KEY") [("cy@uni.edu", uC9)] "cy@uni.edu" ""
        = (dbSetApiKey [("cy@uni.edu", uC9)] "cy@uni.edu" "", .ok true)
    ∧ dbLookup (dbSetApiKey [("cy@uni.edu", uC9)] "cy@uni.edu" "") "cy@uni.edu"
        = some { uC9 with api_key := some "" }
    ∧ generationChatKey { uC9 with api_key := some "" } (some "SYS-KEY") = .ok "SYS-KEY"
    ∧ (mkUserResponse { uC9 with api_key := some "" }).hasApiKey = false :=
  validate_empty_key_uses_system_key (fun _ => true) "SYS-KEY"
    [("cy@uni.edu", uC9)] "cy@uni.edu" uC9 rfl rfl

end LessonPlanner
